import Mathlib

/-!
Verification development for the climate causal-discovery pipeline of
`CausalityClass.py`.

The file gives a shallow embedding of the class: the aligned-dataset builder
(`generate_dataframe`), the seeded offset generator (`generate_random_indices`),
the single analysis pass (`construct_causal_graph` + `linear_estimator`) and the
bootstrap loop (`bootrstapping`, keeping the source's spelling).  The numerical
internals of the tigramite library (PCMCI, LinearMediation) are out of scope of
the specification and are modelled as an abstract interface of pure functions
(`TigramiteModel`); numpy helpers used by the code (`intersect1d`, `vstack`,
`delete`, the seeded `random.choice`) are modelled as executable Lean functions.
Fallible Python operations (raised exceptions) are modelled with `Option`.
-/

namespace CausalClimate

/-- Lexicographic comparison of two character lists by Unicode code point;
this is the order in which `np.intersect1d` returns a sorted string array. -/
def charListLe : List Char → List Char → Bool
  | [], _ => true
  | _ :: _, [] => false
  | a :: as, b :: bs =>
      if a.toNat < b.toNat then true
      else if b.toNat < a.toNat then false
      else charListLe as bs

/-- Lexicographic comparison of strings (by their character lists). -/
def strLe (a b : String) : Bool := charListLe a.data b.data

theorem charListLe_total : ∀ as bs : List Char,
    charListLe as bs = true ∨ charListLe bs as = true := by
  intro as
  induction as with
  | nil => intro bs; exact Or.inl rfl
  | cons a as ih =>
      intro bs
      cases bs with
      | nil => exact Or.inr rfl
      | cons b bs =>
          simp only [charListLe]
          rcases Nat.lt_trichotomy a.toNat b.toNat with h | h | h
          · exact Or.inl (by simp [h])
          · have h2 : ¬ a.toNat < b.toNat := by omega
            have h3 : ¬ b.toNat < a.toNat := by omega
            simp only [if_neg h2, if_neg h3]
            exact ih bs
          · exact Or.inr (by simp [h])

theorem charListLe_trans : ∀ as bs cs : List Char,
    charListLe as bs = true → charListLe bs cs = true → charListLe as cs = true := by
  intro as
  induction as with
  | nil => intro bs cs h1 h2; rfl
  | cons a as ih =>
      intro bs cs h1 h2
      cases bs with
      | nil => simp [charListLe] at h1
      | cons b bs =>
          cases cs with
          | nil => simp [charListLe] at h2
          | cons c cs =>
              simp only [charListLe] at h1 h2 ⊢
              by_cases hab : a.toNat < b.toNat
              · by_cases hbc : b.toNat < c.toNat
                · have hac : a.toNat < c.toNat := Nat.lt_trans hab hbc
                  simp [hac]
                · rw [if_neg hbc] at h2
                  by_cases hcb : c.toNat < b.toNat
                  · rw [if_pos hcb] at h2; simp at h2
                  · have hac : a.toNat < c.toNat := by omega
                    simp [hac]
              · rw [if_neg hab] at h1
                by_cases hba : b.toNat < a.toNat
                · rw [if_pos hba] at h1; simp at h1
                · rw [if_neg hba] at h1
                  by_cases hbc : b.toNat < c.toNat
                  · have hac : a.toNat < c.toNat := by omega
                    simp [hac]
                  · rw [if_neg hbc] at h2
                    by_cases hcb : c.toNat < b.toNat
                    · rw [if_pos hcb] at h2; simp at h2
                    · rw [if_neg hcb] at h2
                      have h3 : ¬ a.toNat < c.toNat := by omega
                      have h4 : ¬ c.toNat < a.toNat := by omega
                      rw [if_neg h3, if_neg h4]
                      exact ih bs cs h1 h2

instance strLeDecRel : DecidableRel (fun a b : String => strLe a b = true) :=
  fun a b => inferInstanceAs (Decidable (strLe a b = true))

instance : IsTotal String (fun a b : String => strLe a b = true) :=
  ⟨fun a b => charListLe_total a.data b.data⟩

instance : IsTrans String (fun a b : String => strLe a b = true) :=
  ⟨fun a b c h1 h2 => charListLe_trans a.data b.data c.data h1 h2⟩

/-- Model of `np.intersect1d(ar1, ar2)` on string arrays: the sorted
(deduplicated) list of values present in both inputs. -/
def npIntersect1d (ar1 ar2 : List String) : List String :=
  List.insertionSort (fun a b => strLe a b = true)
    ((ar1.filter (fun x => ar2.contains x)).dedup)

/-- One named series container of the mapping `D`: the value chain
`D[k].variables[k].values` is modelled as the list of its numeric
observations, one per time step. -/
abbrev Series := List Int

/-- The input mapping `D`, as an association list in insertion order
(Python dict iteration order); keys are unique in a Python dict. -/
abbrev SourceMap := List (String × Series)

/-- `list(D.keys())`. -/
def keysOf (D : SourceMap) : List String := D.map Prod.fst

/-- `D[k]` for a key `k` of the mapping (first binding wins, as in a dict). -/
def lookupSeries (D : SourceMap) (k : String) : Series :=
  (List.lookup k D).getD []

/-- The tigramite `pp.DataFrame`: the value matrix (a list of `T` rows, each
row one time step across the `N` columns) plus the column labels passed as
`var_names`. -/
structure Dataframe where
  values : List (List Int)
  var_names : List String
  deriving DecidableEq

/-- Model of `np.vstack(dataset).transpose()` for a list of 1-d series:
raises (`none`) when the list is empty or the series lengths differ,
otherwise yields the `T × N` row-major matrix whose column `j` is
`dataset[j]`. -/
def np_vstack_t (dataset : List Series) : Option (List (List Int)) :=
  match dataset with
  | [] => none
  | s0 :: rest =>
      if ∀ s ∈ s0 :: rest, s.length = s0.length then
        some ((List.range s0.length).map (fun t => (s0 :: rest).map (fun s => s.getD t 0)))
      else none

/-- `CausalityClass.generate_dataframe(D)`: intersect the configured
`self.var_names` with the mapping keys (`np.intersect1d`, which sorts),
extract each matched series and stack them into the aligned matrix; the
resolved name ordering labels the columns and is also returned.  The
`plot_time_series` call guarded by `boot_iter == 0` is presentation only
and carries no data.  `none` models the `ValueError` raised by `np.vstack`
on an empty or ragged series list. -/
def generate_dataframe (var_names : List String) (D : SourceMap) :
    Option (Dataframe × List String) :=
  let matched_indexes := npIntersect1d var_names (keysOf D)
  match np_vstack_t (matched_indexes.map (fun k => lookupSeries D k)) with
  | none => none
  | some indices => some ({ values := indices, var_names := matched_indexes }, matched_indexes)

/-- Model of `np.delete(rows, idxs, axis=0)`: removes the rows at the given
indices; raises (`none`) when an index is out of bounds. -/
def npDelete {α : Type} (rows : List α) (idxs : List Nat) : Option (List α) :=
  if idxs.all (fun t => t < rows.length) then
    some ((rows.enum.filter (fun p => !(idxs.contains p.1))).map Prod.snd)
  else none

/-- One step of a linear congruential generator; see `npRandomChoiceSeeded`. -/
def lcgStep (x : Nat) : Nat := (1103515245 * x + 12345) % 2 ^ 31

/-- The j-th draw of the stream started at `seed`. -/
def lcgSeq (seed : Nat) : Nat → Nat
  | 0 => lcgStep seed
  | n + 1 => lcgStep (lcgSeq seed n)

/-- Model of `np.random.seed(113)` immediately followed by
`np.random.choice(a=pop, size=size, replace=True)`: because the generator
state is reset to the fixed seed first, the composite is a deterministic
function of `(pop, size)` alone.  The drawn values are modelled by a linear
congruential stream; no claim depends on which population elements come
out, only on determinism, on the number of draws and on membership in the
population.  `none` models the `ValueError` raised when the population is
empty yet samples are requested. -/
def npRandomChoiceSeeded (pop : List Nat) (size : Nat) : Option (List Nat) :=
  if pop.isEmpty && size != 0 then none
  else some ((List.range size).map (fun j => pop.getD (lcgSeq 113 j % pop.length) 0))

/-- `list(range(0, stop, step))` for a positive step. -/
def pyRangeStep (stop step : Nat) : List Nat :=
  List.range' 0 ((stop + step - 1) / step) step

/-- `len(list(range(range_months[0], range_months[1] + 1)))`: the number of
months in one annual block. -/
def n_mons_of (range_months : Nat × Nat) : Nat := range_months.2 + 1 - range_months.1

/-- The options read from `config.yml` in `__init__`. -/
structure RunConfig where
  path : String
  save_path : String
  tau_min : Nat
  tau_max : Nat
  significance_level : ℚ
  range_months : Nat × Nat
  boot_iters : Nat

/-- The attribute state of a `CausalityClass` object.  `P` is the abstract
type of the significant-parent structure returned by the library (see
`TigramiteModel`); `linear_mediator` holds the fitted `LinearMediation`
state, fully determined by the fit inputs `(all_parents, dataframe,
tau_max)`, or `none` before any fit. -/
structure CausalityState (P : Type) where
  D : SourceMap
  var_names : List String
  path : String
  save_path : String
  tau_min : Nat
  tau_max : Nat
  alpha_level : ℚ
  range_months : Nat × Nat
  boot_iter : Nat
  linear_mediator : Option (P × Dataframe × Nat)

/-- `CausalityClass.__init__(D)`: `var_names = list(D.keys())`,
`linear_mediator = None`, the remaining attributes copied from the
configuration. -/
def mkCausality (P : Type) (D : SourceMap) (cfg : RunConfig) : CausalityState P :=
  { D := D
    var_names := keysOf D
    path := cfg.path
    save_path := cfg.save_path
    tau_min := cfg.tau_min
    tau_max := cfg.tau_max
    alpha_level := cfg.significance_level
    range_months := cfg.range_months
    boot_iter := cfg.boot_iters
    linear_mediator := none }

/-- Modelled from the spec: the deterministic interface of the tigramite
library, whose numerics the specification places out of scope (§1) and
treats as an external collaborator.  `P` is the type of the
significant-parent structure produced by `run_pcmci` +
`get_corrected_pvalues` + `return_significant_parents` (a function of the
dataframe, the lag bounds and alpha); `L` the link-matrix type; `V` the
path-coefficient (val) matrix type.  A fitted `LinearMediation` object is
determined by its fit inputs `(parents, dataframe, tau_max)`, so its query
methods are functions of those.  The only laws assumed are the spec's §3
shape facts that ACE and ACS are per-variable vectors of the dataset. -/
structure TigramiteModel (P L V : Type) where
  significant_parents : Dataframe → Nat → Nat → ℚ → P
  link_matrix : P → L
  val_matrix : P → Dataframe → Nat → V
  coefs : P → Dataframe → Nat → List (List ℚ)
  all_ace : P → Dataframe → Nat → List ℚ
  all_acs : P → Dataframe → Nat → List ℚ
  ace_length : ∀ p df tmax, (all_ace p df tmax).length = df.var_names.length
  acs_length : ∀ p df tmax, (all_acs p df tmax).length = df.var_names.length

/-- `CausalityClass.construct_causal_graph(dataframe)`: a fresh `ParCorr` +
`PCMCI` is built from the dataframe on every call, so the returned
significant-parent structure is a function of the dataframe and the
configured `tau_min`, `tau_max`, `significance_level` only. -/
def construct_causal_graph {P L V : Type} (tig : TigramiteModel P L V)
    (s : CausalityState P) (df : Dataframe) : P :=
  tig.significant_parents df s.tau_min s.tau_max s.alpha_level

/-- `CausalityClass.linear_estimator(sig_parents, dataframe)`: builds a fresh
`LinearMediation` from the dataframe, fits it on the given parents with
`tau_max`, stores it in `self.linear_mediator` (overwriting any previous
value) and returns `(val_matrix, link_matrix)`. -/
def linear_estimator {P L V : Type} (tig : TigramiteModel P L V)
    (s : CausalityState P) (sig_parents : P) (df : Dataframe) :
    (V × L) × CausalityState P :=
  ((tig.val_matrix sig_parents df s.tau_max, tig.link_matrix sig_parents),
    { s with linear_mediator := some (sig_parents, df, s.tau_max) })

/-- `self.linear_mediator.get_val_matrix()`: `none` models the
`AttributeError` raised when no mediator has been fitted. -/
def med_val_matrix {P L V : Type} (tig : TigramiteModel P L V) :
    Option (P × Dataframe × Nat) → Option V
  | none => none
  | some (p, df, tmax) => some (tig.val_matrix p df tmax)

/-- `self.linear_mediator.get_coefs()` as used by `get_links_beta_coeffs`. -/
def med_coefs {P L V : Type} (tig : TigramiteModel P L V) :
    Option (P × Dataframe × Nat) → Option (List (List ℚ))
  | none => none
  | some (p, df, tmax) => some (tig.coefs p df tmax)

/-- `self.linear_mediator.get_all_ace()`. -/
def med_all_ace {P L V : Type} (tig : TigramiteModel P L V) :
    Option (P × Dataframe × Nat) → Option (List ℚ)
  | none => none
  | some (p, df, tmax) => some (tig.all_ace p df tmax)

/-- `self.linear_mediator.get_all_acs()`. -/
def med_all_acs {P L V : Type} (tig : TigramiteModel P L V) :
    Option (P × Dataframe × Nat) → Option (List ℚ)
  | none => none
  | some (p, df, tmax) => some (tig.all_acs p df tmax)

/-- The per-iteration report line
`"... X=%.2f, Y=%.2f, Z=%.2f, Q=%.2f " % tuple(v)`: Python %-formatting
succeeds exactly when the tuple arity matches the four conversion
specifiers and raises `TypeError` (modelled by `none`) otherwise. -/
def formatFour (v : List ℚ) : Option String :=
  if v.length = 4 then
    some (String.intercalate ", " (v.map (fun q => toString q)))
  else none

/-- The body of one pass of the loop in `CausalityClass.bootrstapping` for
the drawn offset `i`: rebuild the aligned dataframe from `self.D`, delete
the rows `range(i, i + n_mons)`, run discovery and estimation, print the
beta-coefficient table (`get_links_beta_coeffs`, which reads the freshly
stored mediator) and the two four-value report lines, and return the
recorded `(val_matrix, ace, acs)` together with the updated object state.
`none` models any exception raised inside the pass, which aborts the whole
run. -/
def boot_iteration {P L V : Type} (tig : TigramiteModel P L V)
    (s : CausalityState P) (i : Nat) :
    Option (CausalityState P × V × List ℚ × List ℚ) :=
  match generate_dataframe s.var_names s.D with
  | none => none
  | some (df0, _) =>
      match npDelete df0.values (List.range' i (n_mons_of s.range_months)) with
      | none => none
      | some newVals =>
          let df : Dataframe := { df0 with values := newVals }
          let sig_parents := construct_causal_graph tig s df
          let s2 := (linear_estimator tig s sig_parents df).2
          match med_val_matrix tig s2.linear_mediator,
                med_coefs tig s2.linear_mediator,
                med_all_ace tig s2.linear_mediator,
                med_all_acs tig s2.linear_mediator with
          | some val_matrix, some _, some ace, some acs =>
              match formatFour ace, formatFour acs with
              | some _, some _ => some (s2, val_matrix, ace, acs)
              | _, _ => none
          | _, _, _, _ => none

/-- The `for i in rnd_inds` loop of `bootrstapping`, threading the object
state and accumulating `all_val_matrices`, `all_ace`, `all_acs` in order. -/
def boot_loop {P L V : Type} (tig : TigramiteModel P L V) :
    CausalityState P → List Nat →
    Option (CausalityState P × List V × List (List ℚ) × List (List ℚ))
  | s, [] => some (s, [], [], [])
  | s, i :: rest =>
      match boot_iteration tig s i with
      | none => none
      | some (s2, v, ace, acs) =>
          match boot_loop tig s2 rest with
          | none => none
          | some (s3, vs, aces, acss) => some (s3, v :: vs, ace :: aces, acs :: acss)

/-- `CausalityClass.generate_random_indices()`: seeds numpy with 113, forms
`sample_size = list(range(0, T, n_mons))` from the length `T` of the first
key's series, and draws `boot_iter` offsets with replacement.  `none`
models `IndexError` on an empty mapping (`d_keys[0]`), `ValueError` on a
zero range step, and `ValueError` from `np.random.choice` on an empty
population. -/
def generate_random_indices {P : Type} (s : CausalityState P) : Option (List Nat) :=
  let n_mons := n_mons_of s.range_months
  match s.D with
  | [] => none
  | (_, v) :: _ =>
      if n_mons = 0 then none
      else npRandomChoiceSeeded (pyRangeStep v.length n_mons) s.boot_iter

/-- The name of the npz file written at the end of `bootrstapping`:
`self.path + 'bootstrap' + "_".join(self.var_names)`. -/
def archive_name {P : Type} (s : CausalityState P) : String :=
  s.path ++ "bootstrap" ++ String.intercalate "_" s.var_names

/-- The content of the npz archive written by `np.savez` at the end of
`bootrstapping`: the drawn offsets and the three per-iteration result
collections, under the file name `archive_name`. -/
structure Archive (V : Type) where
  fname : String
  indices : List Nat
  coeffs : List V
  all_ace : List (List ℚ)
  all_acs : List (List ℚ)

/-- `CausalityClass.bootrstapping()` (spelling kept from the source): draw
the offsets, run the loop, then — once, after the loop — save the archive.
Returns the archive together with the final object state; `none` models an
exception aborting the run before the `np.savez` call. -/
def bootrstapping {P L V : Type} (tig : TigramiteModel P L V)
    (s : CausalityState P) : Option (Archive V × CausalityState P) :=
  match generate_random_indices s with
  | none => none
  | some rnd_inds =>
      match boot_loop tig s rnd_inds with
      | none => none
      | some (s2, all_val_matrices, all_ace, all_acs) =>
          some ({ fname := archive_name s
                  indices := rnd_inds
                  coeffs := all_val_matrices
                  all_ace := all_ace
                  all_acs := all_acs }, s2)

/-- The file-system effect of one `bootrstapping` call: the list of archive
files it writes.  `np.savez` sits after the loop, so a completed run writes
exactly one file and an aborted run writes none; no write happens inside an
iteration. -/
def bootstrap_writes {P L V : Type} (tig : TigramiteModel P L V)
    (s : CausalityState P) : List (Archive V) :=
  match bootrstapping tig s with
  | some (a, _) => [a]
  | none => []

/-- A concrete instantiation of the abstract library interface, used to
evaluate the embedding on closed inputs. -/
def trivTig : TigramiteModel Unit Unit Unit where
  significant_parents _ _ _ _ := ()
  link_matrix _ := ()
  val_matrix _ _ _ := ()
  coefs _ _ _ := []
  all_ace _ df _ := List.replicate df.var_names.length 0
  all_acs _ df _ := List.replicate df.var_names.length 0
  ace_length := by intro p df tmax; simp
  acs_length := by intro p df tmax; simp

/-- The length `T` of the first key's series, the quantity
`self.D[k].variables[k].values.shape[0]` for `k = d_keys[0]`. -/
def first_series_length : SourceMap → Nat
  | [] => 0
  | (_, v) :: _ => v.length

theorem contains_eq_true_iff {α : Type} [BEq α] [LawfulBEq α] {l : List α} {a : α} :
    l.contains a = true ↔ a ∈ l := List.elem_iff

theorem contains_eq_false_iff {α : Type} [BEq α] [LawfulBEq α] {l : List α} {a : α} :
    l.contains a = false ↔ a ∉ l := by
  rw [← Bool.not_eq_true]
  exact not_congr contains_eq_true_iff

theorem mem_pyRangeStep {stop step j : Nat} (hs : 0 < step) :
    j ∈ pyRangeStep stop step ↔ step ∣ j ∧ j < stop := by
  unfold pyRangeStep
  rw [List.mem_range']
  constructor
  · rintro ⟨i, hi, rfl⟩
    refine ⟨⟨i, by ring⟩, ?_⟩
    have h2 : (i + 1) * step ≤ stop + step - 1 :=
      (Nat.le_div_iff_mul_le hs).mp hi
    have h3 : (i + 1) * step = step * i + step := by ring
    omega
  · rintro ⟨⟨i, rfl⟩, hlt⟩
    have h3 : (i + 1) * step = step * i + step := by ring
    have h2 : (i + 1) * step ≤ stop + step - 1 := by omega
    have h4 : i + 1 ≤ (stop + step - 1) / step := (Nat.le_div_iff_mul_le hs).mpr h2
    exact ⟨i, by omega, by ring⟩

theorem npRandomChoiceSeeded_length {pop : List Nat} {size : Nat} {l : List Nat}
    (h : npRandomChoiceSeeded pop size = some l) : l.length = size := by
  unfold npRandomChoiceSeeded at h
  split at h
  · simp at h
  · simp only [Option.some.injEq] at h
    subst h
    simp

theorem npRandomChoiceSeeded_mem {pop : List Nat} {size : Nat} {l : List Nat}
    (h : npRandomChoiceSeeded pop size = some l) : ∀ j ∈ l, j ∈ pop := by
  unfold npRandomChoiceSeeded at h
  split at h
  · simp at h
  · next hcond =>
      simp only [Option.some.injEq] at h
      subst h
      intro j hj
      simp only [List.mem_map, List.mem_range] at hj
      obtain ⟨t, ht, rfl⟩ := hj
      have hne : pop ≠ [] := by
        intro hp
        subst hp
        simp at hcond
        omega
      have hlen : 0 < pop.length := List.length_pos.mpr hne
      have hidx : lcgSeq 113 t % pop.length < pop.length := Nat.mod_lt _ hlen
      rw [List.getD_eq_getElem pop 0 hidx]
      exact List.getElem_mem hidx

theorem length_filter_not_mem_range' {T i n : Nat} (h : i + n ≤ T) :
    ((List.range T).filter (fun t => !((List.range' i n).contains t))).length = T - n := by
  have e1 : List.range' 0 i ++ List.range' i n = List.range' 0 (n + i) := by
    simpa using List.range'_append 0 i n 1
  have e2 : List.range' 0 (n + i) ++ List.range' (n + i) (T - (n + i)) = List.range' 0 T := by
    have h3 := List.range'_append 0 (n + i) (T - (n + i)) 1
    simp only [Nat.zero_add, Nat.one_mul] at h3
    rw [h3]
    congr 1
    omega
  have hsplit : List.range T
      = List.range' 0 i ++ List.range' i n ++ List.range' (n + i) (T - (n + i)) := by
    rw [List.range_eq_range', ← e2, ← e1]
  have f1 : (List.range' 0 i).filter (fun t => !((List.range' i n).contains t))
      = List.range' 0 i := by
    apply List.filter_eq_self.mpr
    intro a ha
    obtain ⟨p, hp, rfl⟩ := List.mem_range'.mp ha
    rw [Bool.not_eq_true']
    rcases hca : (List.range' i n).contains (0 + 1 * p) with _ | _
    · rfl
    · exfalso
      obtain ⟨q, hq, hpq⟩ := List.mem_range'.mp (List.elem_iff.mp hca)
      omega
  have f2 : (List.range' i n).filter (fun t => !((List.range' i n).contains t)) = [] := by
    apply List.filter_eq_nil_iff.mpr
    intro a ha
    rw [contains_eq_true_iff.mpr ha]
    simp
  have f3 : (List.range' (n + i) (T - (n + i))).filter (fun t => !((List.range' i n).contains t))
      = List.range' (n + i) (T - (n + i)) := by
    apply List.filter_eq_self.mpr
    intro a ha
    obtain ⟨p, hp, rfl⟩ := List.mem_range'.mp ha
    rw [Bool.not_eq_true']
    rcases hca : (List.range' i n).contains (n + i + 1 * p) with _ | _
    · rfl
    · exfalso
      obtain ⟨q, hq, hpq⟩ := List.mem_range'.mp (List.elem_iff.mp hca)
      omega
  rw [hsplit, List.filter_append, List.filter_append, f1, f2, f3]
  simp only [List.length_append, List.length_range', List.length_nil]
  omega

theorem npDelete_range'_length {α : Type} (rows : List α) (i n : Nat)
    (h : i + n ≤ rows.length) :
    ∃ out, npDelete rows (List.range' i n) = some out ∧ out.length = rows.length - n := by
  have hall : (List.range' i n).all (fun t => decide (t < rows.length)) = true := by
    rw [List.all_eq_true]
    intro t ht
    obtain ⟨p, hp, rfl⟩ := List.mem_range'.mp ht
    simp only [decide_eq_true_eq]
    omega
  unfold npDelete
  rw [if_pos hall]
  refine ⟨_, rfl, ?_⟩
  rw [List.length_map]
  have hmf := List.filter_map (p := fun t => !((List.range' i n).contains t))
    (Prod.fst (α := Nat) (β := α)) rows.enum
  rw [List.enum_map_fst] at hmf
  have hlen : ((List.range rows.length).filter (fun t => !((List.range' i n).contains t))).length
      = (rows.enum.filter (fun p => !((List.range' i n).contains p.1))).length := by
    rw [hmf, List.length_map]
    rfl
  rw [← hlen, length_filter_not_mem_range' h]

theorem mem_npIntersect1d {ar1 ar2 : List String} {x : String} :
    x ∈ npIntersect1d ar1 ar2 ↔ x ∈ ar1 ∧ x ∈ ar2 := by
  unfold npIntersect1d
  rw [List.mem_insertionSort, List.mem_dedup, List.mem_filter]
  exact and_congr_right fun _ => ⟨fun hc => List.elem_iff.mp hc, fun hm => List.elem_iff.mpr hm⟩

theorem sorted_npIntersect1d (ar1 ar2 : List String) :
    List.Sorted (fun a b => strLe a b = true) (npIntersect1d ar1 ar2) :=
  List.sorted_insertionSort _ _

theorem nodup_npIntersect1d (ar1 ar2 : List String) : (npIntersect1d ar1 ar2).Nodup :=
  ((List.perm_insertionSort _ _).nodup_iff).mpr (List.nodup_dedup _)

theorem npIntersect1d_congr {ar1 b1 b2 : List String}
    (h : ∀ x, x ∈ b1 ↔ x ∈ b2) : npIntersect1d ar1 b1 = npIntersect1d ar1 b2 := by
  unfold npIntersect1d
  have : ar1.filter (fun x => b1.contains x) = ar1.filter (fun x => b2.contains x) := by
    apply List.filter_congr
    intro x _
    by_cases hb : x ∈ b2
    · rw [contains_eq_true_iff.mpr hb, contains_eq_true_iff.mpr ((h x).mpr hb)]
    · have hb1 : x ∉ b1 := fun hx => hb ((h x).mp hx)
      rw [contains_eq_false_iff.mpr hb, contains_eq_false_iff.mpr hb1]
  rw [this]

/-- Claim C4: every drawn block-start offset is a non-negative multiple of
the block size `n_mons` strictly below the series length `T`, and exactly
`boot_iter` offsets are drawn in total. -/
theorem drawn_offsets_valid {P : Type} (s : CausalityState P) (inds : List Nat)
    (h : generate_random_indices s = some inds) :
    inds.length = s.boot_iter ∧
    ∀ j ∈ inds, (n_mons_of s.range_months) ∣ j ∧ j < first_series_length s.D := by
  unfold generate_random_indices at h
  rcases hD : s.D with _ | ⟨⟨k, v⟩, rest⟩
  · rw [hD] at h; simp at h
  · rw [hD] at h
    simp only at h
    by_cases hm : n_mons_of s.range_months = 0
    · rw [if_pos hm] at h; simp at h
    · rw [if_neg hm] at h
      refine ⟨npRandomChoiceSeeded_length h, ?_⟩
      intro j hj
      have hmem := npRandomChoiceSeeded_mem h j hj
      have hspec := (mem_pyRangeStep (Nat.pos_of_ne_zero hm)).mp hmem
      simpa [first_series_length, hD] using hspec

/-- A concrete one-variable run configuration state: 24 monthly samples,
annual block of 12, two bootstrap iterations. -/
def w4state : CausalityState Unit :=
  { D := [("X", List.replicate 24 0)]
    var_names := ["X"]
    path := ""
    save_path := ""
    tau_min := 0
    tau_max := 3
    alpha_level := 1 / 20
    range_months := (0, 11)
    boot_iter := 2
    linear_mediator := none }

theorem drawn_offsets_valid_witness :
    generate_random_indices w4state = some [0, 12] ∧
    ([0, 12] : List Nat).length = w4state.boot_iter ∧
    (∀ j ∈ ([0, 12] : List Nat),
      (n_mons_of w4state.range_months) ∣ j ∧ j < first_series_length w4state.D) :=
  ⟨by decide, drawn_offsets_valid w4state [0, 12] (by decide)⟩

/-- Two Resampler runs have the same inputs: same source mapping and same
configuration attributes; the mutable `linear_mediator` slot is deliberately
left unconstrained, since reproducibility must not depend on it. -/
def same_run_inputs {P : Type} (s1 s2 : CausalityState P) : Prop :=
  s1.D = s2.D ∧ s1.var_names = s2.var_names ∧ s1.path = s2.path ∧
  s1.save_path = s2.save_path ∧ s1.tau_min = s2.tau_min ∧ s1.tau_max = s2.tau_max ∧
  s1.alpha_level = s2.alpha_level ∧ s1.range_months = s2.range_months ∧
  s1.boot_iter = s2.boot_iter

theorem boot_iteration_congr {P L V : Type} (tig : TigramiteModel P L V)
    {s1 s2 : CausalityState P} (h : same_run_inputs s1 s2) (i : Nat) :
    boot_iteration tig s1 i = boot_iteration tig s2 i := by
  obtain ⟨h1, h2, h3, h4, h5, h6, h7, h8, h9⟩ := h
  obtain ⟨D1, vn1, p1, sp1, tm1, tM1, a1, rm1, b1, m1⟩ := s1
  obtain ⟨D2, vn2, p2, sp2, tm2, tM2, a2, rm2, b2, m2⟩ := s2
  obtain rfl : D1 = D2 := h1
  obtain rfl : vn1 = vn2 := h2
  obtain rfl : p1 = p2 := h3
  obtain rfl : sp1 = sp2 := h4
  obtain rfl : tm1 = tm2 := h5
  obtain rfl : tM1 = tM2 := h6
  obtain rfl : a1 = a2 := h7
  obtain rfl : rm1 = rm2 := h8
  obtain rfl : b1 = b2 := h9
  rfl

theorem boot_loop_congr {P L V : Type} (tig : TigramiteModel P L V)
    {s1 s2 : CausalityState P} (h : same_run_inputs s1 s2) (inds : List Nat) :
    (boot_loop tig s1 inds).map (fun r => r.2) = (boot_loop tig s2 inds).map (fun r => r.2) := by
  cases inds with
  | nil => rfl
  | cons i rest =>
      simp only [boot_loop]
      rw [boot_iteration_congr tig h i]

/-- Claim C1: the fixed seed 113 is set right before drawing, so the drawn
offset sequence is a deterministic function of the run inputs, and two runs
with the same source mapping and configuration produce identical offset
sequences and identical archives (coefficient matrices, ACE vectors, ACS
vectors) — independently of any `linear_mediator` state left in the object. -/
theorem bootstrap_deterministic {P L V : Type} (tig : TigramiteModel P L V)
    (s1 s2 : CausalityState P) (h : same_run_inputs s1 s2) :
    generate_random_indices s1 = generate_random_indices s2 ∧
    (bootrstapping tig s1).map Prod.fst = (bootrstapping tig s2).map Prod.fst ∧
    (∀ t1 t2 : CausalityState P, t1.D ≠ [] → t2.D ≠ [] →
      first_series_length t1.D = first_series_length t2.D →
      t1.range_months = t2.range_months → t1.boot_iter = t2.boot_iter →
      generate_random_indices t1 = generate_random_indices t2) := by
  obtain ⟨h1, h2, h3, h4, h5, h6, h7, h8, h9⟩ := h
  have hgen : generate_random_indices s1 = generate_random_indices s2 := by
    unfold generate_random_indices
    rw [h1, h8, h9]
  have hfun : ∀ t1 t2 : CausalityState P, t1.D ≠ [] → t2.D ≠ [] →
      first_series_length t1.D = first_series_length t2.D →
      t1.range_months = t2.range_months → t1.boot_iter = t2.boot_iter →
      generate_random_indices t1 = generate_random_indices t2 := by
    intro t1 t2 hne1 hne2 hlen hrm hbi
    rcases e1 : t1.D with _ | ⟨⟨k1, v1⟩, r1⟩
    · exact absurd e1 hne1
    rcases e2 : t2.D with _ | ⟨⟨k2, v2⟩, r2⟩
    · exact absurd e2 hne2
    have hv : v1.length = v2.length := by
      rw [e1, e2] at hlen
      simpa [first_series_length] using hlen
    unfold generate_random_indices
    simp only [e1, e2]
    rw [hrm, hbi, hv]
  refine ⟨hgen, ?_, hfun⟩
  have hname : archive_name s1 = archive_name s2 := by
    unfold archive_name
    rw [h3, h2]
  cases hG : generate_random_indices s2 with
  | none =>
      simp [bootrstapping, hG, hgen.trans hG]
  | some inds =>
      have hG1 : generate_random_indices s1 = some inds := hgen.trans hG
      have hloop := boot_loop_congr tig ⟨h1, h2, h3, h4, h5, h6, h7, h8, h9⟩ inds
      cases hA : boot_loop tig s1 inds with
      | none =>
          cases hB : boot_loop tig s2 inds with
          | none => simp [bootrstapping, hG, hG1, hA, hB]
          | some r2 => rw [hA, hB] at hloop; simp at hloop
      | some r1 =>
          cases hB : boot_loop tig s2 inds with
          | none => rw [hA, hB] at hloop; simp at hloop
          | some r2 =>
              rw [hA, hB] at hloop
              obtain ⟨s3, vs1, aces1, acss1⟩ := r1
              obtain ⟨s4, vs2, aces2, acss2⟩ := r2
              simp only [Option.map_some'] at hloop
              have hcoll : vs1 = vs2 ∧ aces1 = aces2 ∧ acss1 = acss2 := by
                have h0 := Option.some.inj hloop
                simpa [Prod.ext_iff] using h0
              obtain ⟨e1, e2, e3⟩ := hcoll
              simp [bootrstapping, hG, hG1, hA, hB, hname, e1, e2, e3]

/-- A two-variable state with four years of monthly data and two bootstrap
iterations. -/
def w1base : CausalityState Unit :=
  { D := [("Y", List.replicate 48 1), ("X", List.replicate 48 0)]
    var_names := ["Y", "X"]
    path := "out/"
    save_path := "plots/"
    tau_min := 0
    tau_max := 3
    alpha_level := 1 / 20
    range_months := (0, 11)
    boot_iter := 2
    linear_mediator := none }

/-- The same run inputs as `w1base` but with a stale fitted mediator left in
the object. -/
def w1alt : CausalityState Unit :=
  { w1base with linear_mediator := some ((), { values := [], var_names := [] }, 0) }

theorem bootstrap_deterministic_witness :
    same_run_inputs w1base w1alt ∧
    (generate_random_indices w1base = generate_random_indices w1alt ∧
      (bootrstapping trivTig w1base).map Prod.fst = (bootrstapping trivTig w1alt).map Prod.fst ∧
      (∀ t1 t2 : CausalityState Unit, t1.D ≠ [] → t2.D ≠ [] →
        first_series_length t1.D = first_series_length t2.D →
        t1.range_months = t2.range_months → t1.boot_iter = t2.boot_iter →
        generate_random_indices t1 = generate_random_indices t2)) :=
  ⟨⟨rfl, rfl, rfl, rfl, rfl, rfl, rfl, rfl, rfl⟩,
    bootstrap_deterministic trivTig w1base w1alt ⟨rfl, rfl, rfl, rfl, rfl, rfl, rfl, rfl, rfl⟩⟩

theorem np_vstack_t_cons {s0 : Series} {rest : List Series} {M : List (List Int)}
    (h : np_vstack_t (s0 :: rest) = some M) :
    (∀ s ∈ s0 :: rest, s.length = s0.length) ∧
    M = (List.range s0.length).map (fun t => (s0 :: rest).map (fun s => s.getD t 0)) := by
  by_cases hall : ∀ s ∈ s0 :: rest, s.length = s0.length
  · refine ⟨hall, ?_⟩
    have he : np_vstack_t (s0 :: rest)
        = some ((List.range s0.length).map (fun t => (s0 :: rest).map (fun s => s.getD t 0))) := by
      simp only [np_vstack_t]
      rw [if_pos hall]
    rw [he] at h
    exact (Option.some.inj h).symm
  · have he : np_vstack_t (s0 :: rest) = none := by
      simp only [np_vstack_t]
      rw [if_neg hall]
    rw [he] at h
    simp at h

theorem np_vstack_t_lengths {dataset : List Series} {M : List (List Int)}
    (h : np_vstack_t dataset = some M) :
    ∀ s1 ∈ dataset, ∀ s2 ∈ dataset, s1.length = s2.length := by
  cases dataset with
  | nil => simp [np_vstack_t] at h
  | cons s0 rest =>
      intro s1 hs1 s2 hs2
      obtain ⟨hall, _⟩ := np_vstack_t_cons h
      rw [hall s1 hs1, hall s2 hs2]

/-- Claim C5: the builder's column ordering is the lexicographically sorted,
duplicate-free intersection of the configured variable names with the
mapping's keys, invariant under the mapping's insertion order, and the
returned name list labels the matrix columns in exactly that order. -/
theorem dataframe_column_order {vn : List String} {D : SourceMap}
    {df : Dataframe} {names : List String}
    (h : generate_dataframe vn D = some (df, names)) :
    names = npIntersect1d vn (keysOf D) ∧
    List.Sorted (fun a b => strLe a b = true) names ∧
    names.Nodup ∧
    (∀ x, x ∈ names ↔ x ∈ vn ∧ x ∈ keysOf D) ∧
    (∀ D2 : SourceMap, (∀ x, x ∈ keysOf D2 ↔ x ∈ keysOf D) →
      npIntersect1d vn (keysOf D2) = names) ∧
    df.var_names = names ∧
    (∀ j, j < names.length → ∀ t, t < df.values.length →
      (df.values.getD t []).getD j 0 = (lookupSeries D (names.getD j "")).getD t 0) := by
  simp only [generate_dataframe] at h
  cases hv : np_vstack_t ((npIntersect1d vn (keysOf D)).map (fun k => lookupSeries D k)) with
  | none => rw [hv] at h; simp at h
  | some ind =>
      rw [hv] at h
      simp only [Option.some.injEq, Prod.mk.injEq] at h
      obtain ⟨hdf, hn⟩ := h
      subst hn
      subst hdf
      refine ⟨rfl, sorted_npIntersect1d vn (keysOf D), nodup_npIntersect1d vn (keysOf D),
        fun x => mem_npIntersect1d, fun D2 hk => npIntersect1d_congr hk, rfl, ?_⟩
      intro j hj t ht
      dsimp only at hj ht ⊢
      cases hN : npIntersect1d vn (keysOf D) with
      | nil => rw [hN] at hv; simp [np_vstack_t] at hv
      | cons n0 nrest =>
          rw [hN] at hv hj
          rw [List.map_cons] at hv
          obtain ⟨hlen, hM⟩ := np_vstack_t_cons hv
          subst hM
          have hT2 : t < (lookupSeries D n0).length := by simpa using ht
          have hjd : j < (n0 :: nrest).length := by simpa using hj
          have hcast : lookupSeries D n0 :: nrest.map (fun k => lookupSeries D k)
              = (n0 :: nrest).map (fun k => lookupSeries D k) := rfl
          simp only [List.getD_eq_getElem?_getD, List.getElem?_map]
          rw [List.getElem?_range hT2, List.getElem?_eq_getElem hjd]
          simp only [Option.map_some', Option.getD_some]
          rw [hcast]
          simp only [List.getElem?_map]
          rw [List.getElem?_eq_getElem hjd]
          simp only [Option.map_some', Option.getD_some]

/-- Claim C6: an empty variable-name intersection or misaligned series
lengths make the Aligned Dataset Builder raise instead of returning a
truncated or empty matrix, and a bootstrap iteration whose builder raised
never reaches the causal-discovery step. -/
theorem builder_fails_on_degenerate_input {P L V : Type} (tig : TigramiteModel P L V) :
    (∀ (vn : List String) (D : SourceMap),
      npIntersect1d vn (keysOf D) = [] → generate_dataframe vn D = none) ∧
    (∀ (vn : List String) (D : SourceMap) (k1 k2 : String),
      k1 ∈ npIntersect1d vn (keysOf D) → k2 ∈ npIntersect1d vn (keysOf D) →
      (lookupSeries D k1).length ≠ (lookupSeries D k2).length →
      generate_dataframe vn D = none) ∧
    (∀ (s : CausalityState P) (i : Nat),
      generate_dataframe s.var_names s.D = none → boot_iteration tig s i = none) := by
  refine ⟨?_, ?_, ?_⟩
  · intro vn D hempty
    simp [generate_dataframe, hempty, np_vstack_t]
  · intro vn D k1 k2 hk1 hk2 hne
    cases hv : np_vstack_t ((npIntersect1d vn (keysOf D)).map (fun k => lookupSeries D k)) with
    | none => simp [generate_dataframe, hv]
    | some M =>
        exact absurd
          (np_vstack_t_lengths hv (lookupSeries D k1)
            (List.mem_map_of_mem _ hk1) (lookupSeries D k2)
            (List.mem_map_of_mem _ hk2)) hne
  · intro s i hnone
    simp [boot_iteration, hnone]

theorem boot_iteration_state {P L V : Type} (tig : TigramiteModel P L V)
    {s : CausalityState P} {i : Nat} {r : CausalityState P × V × List ℚ × List ℚ}
    (h : boot_iteration tig s i = some r) :
    r.1.D = s.D ∧ r.1.var_names = s.var_names ∧ r.1.range_months = s.range_months ∧
    r.1.path = s.path ∧ r.1.boot_iter = s.boot_iter := by
  simp only [boot_iteration] at h
  split at h
  · simp at h
  · split at h
    · simp at h
    · split at h
      · split at h
        · obtain rfl : _ = r := Option.some.inj h
          exact ⟨rfl, rfl, rfl, rfl, rfl⟩
        · simp at h
      · simp at h

/-- Claim C3: each bootstrap iteration rebuilds the aligned dataset fresh
from the original, untouched source mapping of the object state, then
removes exactly one contiguous block of `n_mons` consecutive time steps
starting at the drawn offset, leaving `T - n_mons` rows; the only state the
iteration changes is the fitted-mediator slot, so no trimmed data carries
over to the next iteration. -/
theorem iteration_block_removal {P L V : Type} (tig : TigramiteModel P L V)
    (s : CausalityState P) (i : Nat) {df0 : Dataframe} {names : List String}
    (_hdf : generate_dataframe s.var_names s.D = some (df0, names))
    (hi : n_mons_of s.range_months ∣ i)
    (hiT : i < df0.values.length)
    (hT : n_mons_of s.range_months ∣ df0.values.length)
    (_hm : 0 < n_mons_of s.range_months) :
    (∃ reduced, npDelete df0.values (List.range' i (n_mons_of s.range_months)) = some reduced ∧
      reduced.length = df0.values.length - n_mons_of s.range_months) ∧
    (∀ r, boot_iteration tig s i = some r →
      r.1.D = s.D ∧ r.1.var_names = s.var_names ∧ r.1.range_months = s.range_months) := by
  constructor
  · obtain ⟨a, ha⟩ := hi
    obtain ⟨b, hb⟩ := hT
    have hab : a < b := by
      apply Nat.lt_of_mul_lt_mul_left (a := n_mons_of s.range_months)
      rw [← ha, ← hb]
      exact hiT
    have hstep : n_mons_of s.range_months * (a + 1) ≤ n_mons_of s.range_months * b :=
      Nat.mul_le_mul_left _ hab
    rw [Nat.mul_succ] at hstep
    refine npDelete_range'_length df0.values i (n_mons_of s.range_months) ?_
    omega
  · intro r hr
    obtain ⟨e1, e2, e3, _, _⟩ := boot_iteration_state tig hr
    exact ⟨e1, e2, e3⟩

def w5vn : List String := ["Y", "X", "Z"]

def w5D : SourceMap := [("X", [3, 4]), ("Y", [1, 2])]

def w5df : Dataframe := { values := [[3, 1], [4, 2]], var_names := ["X", "Y"] }

theorem dataframe_column_order_witness :
    generate_dataframe w5vn w5D = some (w5df, ["X", "Y"]) ∧
    (["X", "Y"] = npIntersect1d w5vn (keysOf w5D) ∧
      List.Sorted (fun a b => strLe a b = true) ["X", "Y"] ∧
      (["X", "Y"] : List String).Nodup ∧
      (∀ x, x ∈ (["X", "Y"] : List String) ↔ x ∈ w5vn ∧ x ∈ keysOf w5D) ∧
      (∀ D2 : SourceMap, (∀ x, x ∈ keysOf D2 ↔ x ∈ keysOf w5D) →
        npIntersect1d w5vn (keysOf D2) = ["X", "Y"]) ∧
      w5df.var_names = ["X", "Y"] ∧
      (∀ j, j < (["X", "Y"] : List String).length → ∀ t, t < w5df.values.length →
        (w5df.values.getD t []).getD j 0
          = (lookupSeries w5D ((["X", "Y"] : List String).getD j "")).getD t 0)) :=
  ⟨by decide, dataframe_column_order (by decide)⟩

def w6D1 : SourceMap := [("B", [1])]

def w6D2 : SourceMap := [("A", [1, 2]), ("B", [5])]

def w6state : CausalityState Unit :=
  { D := [("B", [1])]
    var_names := ["A"]
    path := ""
    save_path := ""
    tau_min := 0
    tau_max := 3
    alpha_level := 1 / 20
    range_months := (0, 11)
    boot_iter := 1
    linear_mediator := none }

theorem builder_fails_witness :
    (npIntersect1d ["A"] (keysOf w6D1) = [] ∧ generate_dataframe ["A"] w6D1 = none) ∧
    (("A" ∈ npIntersect1d ["A", "B"] (keysOf w6D2) ∧
      "B" ∈ npIntersect1d ["A", "B"] (keysOf w6D2) ∧
      (lookupSeries w6D2 "A").length ≠ (lookupSeries w6D2 "B").length) ∧
      generate_dataframe ["A", "B"] w6D2 = none) ∧
    (generate_dataframe w6state.var_names w6state.D = none ∧
      boot_iteration trivTig w6state 0 = none) :=
  ⟨⟨by decide, (builder_fails_on_degenerate_input trivTig).1 ["A"] w6D1 (by decide)⟩,
    ⟨⟨by decide, by decide, by decide⟩,
      (builder_fails_on_degenerate_input trivTig).2.1 ["A", "B"] w6D2 "A" "B"
        (by decide) (by decide) (by decide)⟩,
    ⟨by decide, (builder_fails_on_degenerate_input trivTig).2.2 w6state 0 (by decide)⟩⟩

/-- The spec's reference scenario: one variable with 240 monthly samples,
an annual block of 12 and 5 bootstrap iterations. -/
def w3state : CausalityState Unit :=
  { D := [("X", List.replicate 240 0)]
    var_names := ["X"]
    path := ""
    save_path := ""
    tau_min := 0
    tau_max := 3
    alpha_level := 1 / 20
    range_months := (1, 12)
    boot_iter := 5
    linear_mediator := none }

def w3df : Dataframe := { values := List.replicate 240 ([0] : List Int), var_names := ["X"] }

set_option maxRecDepth 8000 in
theorem iteration_block_removal_witness :
    generate_dataframe w3state.var_names w3state.D = some (w3df, ["X"]) ∧
    ((∃ reduced,
        npDelete w3df.values (List.range' 24 (n_mons_of w3state.range_months)) = some reduced ∧
        reduced.length = w3df.values.length - n_mons_of w3state.range_months) ∧
      (∀ r, boot_iteration trivTig w3state 24 = some r →
        r.1.D = w3state.D ∧ r.1.var_names = w3state.var_names ∧
        r.1.range_months = w3state.range_months)) :=
  ⟨by decide, iteration_block_removal trivTig w3state 24
    (show generate_dataframe w3state.var_names w3state.D = some (w3df, ["X"]) by decide)
    (by decide) (by decide) (by decide) (by decide)⟩

theorem generate_random_indices_length {P : Type} {s : CausalityState P} {inds : List Nat}
    (h : generate_random_indices s = some inds) : inds.length = s.boot_iter := by
  unfold generate_random_indices at h
  rcases hD : s.D with _ | ⟨⟨k, v⟩, rest⟩
  · rw [hD] at h; simp at h
  · rw [hD] at h
    simp only at h
    by_cases hm : n_mons_of s.range_months = 0
    · rw [if_pos hm] at h; simp at h
    · rw [if_neg hm] at h
      exact npRandomChoiceSeeded_length h

theorem generate_dataframe_var_names {vn : List String} {D : SourceMap} {df : Dataframe}
    {names : List String} (h : generate_dataframe vn D = some (df, names)) :
    df.var_names = names := by
  simp only [generate_dataframe] at h
  cases hv : np_vstack_t ((npIntersect1d vn (keysOf D)).map (fun k => lookupSeries D k)) with
  | none => rw [hv] at h; simp at h
  | some ind =>
      rw [hv] at h
      simp only [Option.some.injEq, Prod.mk.injEq] at h
      obtain ⟨hdf, hn⟩ := h
      subst hn
      subst hdf
      rfl

theorem bootrstapping_some_spec {P L V : Type} (tig : TigramiteModel P L V)
    {s : CausalityState P} {a : Archive V} {s3 : CausalityState P}
    (h : bootrstapping tig s = some (a, s3)) :
    generate_random_indices s = some a.indices ∧ a.fname = archive_name s ∧
    boot_loop tig s a.indices = some (s3, a.coeffs, a.all_ace, a.all_acs) := by
  simp only [bootrstapping] at h
  cases hg : generate_random_indices s with
  | none => simp [hg] at h
  | some inds =>
      simp only [hg] at h
      cases hl : boot_loop tig s inds with
      | none => simp [hl] at h
      | some r =>
          obtain ⟨s4, vs, aces, acss⟩ := r
          simp only [hl] at h
          simp only [Option.some.injEq, Prod.mk.injEq] at h
          obtain ⟨ha, hs⟩ := h
          subst hs
          subst ha
          exact ⟨rfl, rfl, hl⟩

theorem boot_loop_lengths {P L V : Type} (tig : TigramiteModel P L V) :
    ∀ (inds : List Nat) (s s3 : CausalityState P) (vs : List V)
      (aces acss : List (List ℚ)),
      boot_loop tig s inds = some (s3, vs, aces, acss) →
      vs.length = inds.length ∧ aces.length = inds.length ∧ acss.length = inds.length := by
  intro inds
  induction inds with
  | nil =>
      intro s s3 vs aces acss h
      simp only [boot_loop, Option.some.injEq, Prod.mk.injEq] at h
      obtain ⟨h1, h2, h3, h4⟩ := h
      subst h2; subst h3; subst h4
      exact ⟨rfl, rfl, rfl⟩
  | cons i rest ih =>
      intro s s3 vs aces acss h
      simp only [boot_loop] at h
      cases hit : boot_iteration tig s i with
      | none => simp [hit] at h
      | some r =>
          obtain ⟨s2, v, ace, acs⟩ := r
          simp only [hit] at h
          cases hrec : boot_loop tig s2 rest with
          | none => simp [hrec] at h
          | some r2 =>
              obtain ⟨s4, vs2, aces2, acss2⟩ := r2
              simp only [hrec] at h
              simp only [Option.some.injEq, Prod.mk.injEq] at h
              obtain ⟨h1, h2, h3, h4⟩ := h
              subst h2; subst h3; subst h4
              obtain ⟨e1, e2, e3⟩ := ih s2 s4 vs2 aces2 acss2 hrec
              simp [e1, e2, e3]

/-- The archive a zero-iteration run writes: the run's archive name with an
empty offset sequence and empty result collections. -/
def empty_archive {P : Type} (V : Type) (s : CausalityState P) : Archive V :=
  { fname := archive_name s, indices := [], coeffs := [], all_ace := [], all_acs := [] }

/-- Claim C2 (amended): with `boot_iters = 0` the bootstrap procedure runs
zero discovery-plus-estimation passes, yet still writes a bootstrap archive
file — with empty offset sequence and empty result collections — because
the `np.savez` call sits unconditionally after the loop. -/
theorem boot_zero_empty_archive {P L V : Type} (tig : TigramiteModel P L V)
    (s : CausalityState P) (hD : s.D ≠ []) (hm : n_mons_of s.range_months ≠ 0)
    (h0 : s.boot_iter = 0) :
    bootrstapping tig s = some (empty_archive V s, s) ∧
    bootstrap_writes tig s = [empty_archive V s] := by
  have hgen : generate_random_indices s = some [] := by
    rcases hD2 : s.D with _ | ⟨⟨k, v⟩, rest⟩
    · exact absurd hD2 hD
    · unfold generate_random_indices
      rw [hD2]
      simp only
      rw [if_neg hm, h0]
      simp [npRandomChoiceSeeded]
  have hrun : bootrstapping tig s = some (empty_archive V s, s) := by
    simp [bootrstapping, hgen, boot_loop, empty_archive]
  exact ⟨hrun, by simp [bootstrap_writes, hrun]⟩

/-- A four-years, one-variable state configured for zero bootstrap
iterations. -/
def c2state : CausalityState Unit :=
  { D := [("X", List.replicate 24 0)]
    var_names := ["X"]
    path := "out/"
    save_path := ""
    tau_min := 0
    tau_max := 3
    alpha_level := 1 / 20
    range_months := (0, 11)
    boot_iter := 0
    linear_mediator := none }

/-- Claim C2 counterexample: calling the bootstrap procedure with
`boot_iters = 0` still writes a bootstrap archive file (exactly one). -/
theorem boot_zero_still_writes :
    c2state.boot_iter = 0 ∧ (bootstrap_writes trivTig c2state).length = 1 :=
  ⟨rfl, by decide⟩

theorem boot_zero_empty_archive_witness :
    (c2state.D ≠ [] ∧ n_mons_of c2state.range_months ≠ 0 ∧ c2state.boot_iter = 0) ∧
    (bootrstapping trivTig c2state = some (empty_archive Unit c2state, c2state) ∧
      bootstrap_writes trivTig c2state = [empty_archive Unit c2state]) :=
  ⟨⟨by decide, by decide, rfl⟩,
    boot_zero_empty_archive trivTig c2state (by decide) (by decide) rfl⟩

/-- Claim C7: a completed run's archive holds the full drawn-offset
sequence and exactly one path-coefficient matrix, one ACE vector and one
ACS vector per iteration, and the `np.savez` persistence happens exactly
once, after the loop — a run writes one file or, when aborted, none, and
never writes inside an iteration. -/
theorem archive_contents {P L V : Type} (tig : TigramiteModel P L V)
    (s : CausalityState P) (a : Archive V) (s2 : CausalityState P)
    (h : bootrstapping tig s = some (a, s2)) :
    generate_random_indices s = some a.indices ∧
    a.indices.length = s.boot_iter ∧
    a.coeffs.length = a.indices.length ∧
    a.all_ace.length = a.indices.length ∧
    a.all_acs.length = a.indices.length ∧
    a.fname = archive_name s ∧
    bootstrap_writes tig s = [a] := by
  obtain ⟨hg, hf, hl⟩ := bootrstapping_some_spec tig h
  obtain ⟨e1, e2, e3⟩ := boot_loop_lengths tig a.indices s s2 a.coeffs a.all_ace a.all_acs hl
  exact ⟨hg, generate_random_indices_length hg, e1, e2, e3, hf, by simp [bootstrap_writes, h]⟩

/-- A four-variable state (four years of monthly data, one iteration). -/
def w7state : CausalityState Unit :=
  { D := [("X", List.replicate 24 0), ("Y", List.replicate 24 1),
      ("Z", List.replicate 24 2), ("Q", List.replicate 24 3)]
    var_names := ["X", "Y", "Z", "Q"]
    path := "out/"
    save_path := ""
    tau_min := 0
    tau_max := 3
    alpha_level := 1 / 20
    range_months := (0, 11)
    boot_iter := 1
    linear_mediator := none }

def w7run : Option (Archive Unit × CausalityState Unit) := bootrstapping trivTig w7state

def w7pair : Archive Unit × CausalityState Unit :=
  w7run.getD (empty_archive Unit w7state, w7state)

theorem archive_contents_witness :
    generate_random_indices w7state = some w7pair.1.indices ∧
    w7pair.1.indices.length = w7state.boot_iter ∧
    w7pair.1.coeffs.length = w7pair.1.indices.length ∧
    w7pair.1.all_ace.length = w7pair.1.indices.length ∧
    w7pair.1.all_acs.length = w7pair.1.indices.length ∧
    w7pair.1.fname = archive_name w7state ∧
    bootstrap_writes trivTig w7state = [w7pair.1] :=
  archive_contents trivTig w7state w7pair.1 w7pair.2 (by rfl)

def w8Da : SourceMap := [("X", [1, 2]), ("Y", [3, 4])]

def w8Db : SourceMap := [("Y", [3, 4]), ("X", [1, 2])]

def w8cfg : RunConfig :=
  { path := "out/"
    save_path := ""
    tau_min := 0
    tau_max := 3
    significance_level := 1 / 20
    range_months := (0, 11)
    boot_iters := 1 }

/-- Claim C8 counterexample: two runs over the very same variable subset,
supplied in different insertion orders, get different archive names — the
file name joins `self.var_names` in dict insertion order, not sorted. -/
theorem archive_name_depends_on_order :
    (keysOf w8Da).Perm (keysOf w8Db) ∧
    archive_name (mkCausality Unit w8Da w8cfg) ≠ archive_name (mkCausality Unit w8Db w8cfg) :=
  ⟨by decide, by decide⟩

/-- Claim C8 (amended): the archive name is
`path + "bootstrap" + "_".join(var_names)` with the variable names in the
mapping's insertion order (not sorted); two runs whose mappings present the
same keys in the same order, with the same output path, get the same
archive name, and a completed run's archive carries exactly that name. -/
theorem archive_name_spec {P L V : Type} (tig : TigramiteModel P L V)
    (s1 s2 : CausalityState P)
    (hk : s1.var_names = s2.var_names) (hp : s1.path = s2.path) :
    archive_name s1 = s1.path ++ "bootstrap" ++ String.intercalate "_" s1.var_names ∧
    archive_name s1 = archive_name s2 ∧
    (∀ (a : Archive V) (s3 : CausalityState P),
      bootrstapping tig s1 = some (a, s3) → a.fname = archive_name s1) := by
  refine ⟨rfl, ?_, ?_⟩
  · unfold archive_name
    rw [hk, hp]
  · intro a s3 h
    exact (bootrstapping_some_spec tig h).2.1

def w8s1 : CausalityState Unit := mkCausality Unit w8Da w8cfg

def w8s2 : CausalityState Unit :=
  { (mkCausality Unit w8Da w8cfg) with boot_iter := 0, alpha_level := 1 / 10 }

theorem archive_name_spec_witness :
    (w8s1.var_names = w8s2.var_names ∧ w8s1.path = w8s2.path) ∧
    (archive_name w8s1 = w8s1.path ++ "bootstrap" ++ String.intercalate "_" w8s1.var_names ∧
      archive_name w8s1 = archive_name w8s2 ∧
      (∀ (a : Archive Unit) (s3 : CausalityState Unit),
        bootrstapping trivTig w8s1 = some (a, s3) → a.fname = archive_name w8s1)) :=
  ⟨⟨rfl, rfl⟩, archive_name_spec trivTig w8s1 w8s2 rfl rfl⟩

/-- The composite of one `construct_causal_graph` call followed by one
`linear_estimator` call on the same dataframe: returns the significant
parents, the val matrix and the link matrix, plus the updated object
state (whose `linear_mediator` now holds the fresh fit). -/
def run_analysis {P L V : Type} (tig : TigramiteModel P L V)
    (s : CausalityState P) (df : Dataframe) : (P × V × L) × CausalityState P :=
  let sig_parents := construct_causal_graph tig s df
  let es := linear_estimator tig s sig_parents df
  ((sig_parents, es.1.1, es.1.2), es.2)

/-- Claim C9: running Causal Search + Mediation Estimator twice on the same
unmodified dataframe (same lag bounds and alpha) returns identical
significant-parent structures and identical coefficient matrices, whatever
mutable state (`linear_mediator`, data, counters) the object carries in
between — in particular the second run from the state the first one left
behind returns the same result. -/
theorem analysis_idempotent {P L V : Type} (tig : TigramiteModel P L V)
    (s1 s2 : CausalityState P) (df : Dataframe)
    (h1 : s1.tau_min = s2.tau_min) (h2 : s1.tau_max = s2.tau_max)
    (h3 : s1.alpha_level = s2.alpha_level) :
    (run_analysis tig s1 df).1 = (run_analysis tig s2 df).1 ∧
    (run_analysis tig (run_analysis tig s1 df).2 df).1 = (run_analysis tig s1 df).1 := by
  constructor
  · unfold run_analysis construct_causal_graph linear_estimator
    rw [h1, h2, h3]
  · rfl

def w9a : CausalityState Unit :=
  { D := [("X", [1, 2])]
    var_names := ["X"]
    path := "out/"
    save_path := ""
    tau_min := 0
    tau_max := 3
    alpha_level := 1 / 20
    range_months := (0, 11)
    boot_iter := 5
    linear_mediator := none }

/-- Same lag bounds and alpha as `w9a`, everything else (mapping, paths,
iteration count, fitted mediator) different. -/
def w9b : CausalityState Unit :=
  { D := []
    var_names := []
    path := "elsewhere/"
    save_path := "plots/"
    tau_min := 0
    tau_max := 3
    alpha_level := 1 / 20
    range_months := (5, 7)
    boot_iter := 9
    linear_mediator := some ((), { values := [[7]], var_names := ["W"] }, 2) }

def w9df : Dataframe := { values := [[1], [2]], var_names := ["X"] }

theorem analysis_idempotent_witness :
    (w9a.tau_min = w9b.tau_min ∧ w9a.tau_max = w9b.tau_max ∧
      w9a.alpha_level = w9b.alpha_level) ∧
    ((run_analysis trivTig w9a w9df).1 = (run_analysis trivTig w9b w9df).1 ∧
      (run_analysis trivTig (run_analysis trivTig w9a w9df).2 w9df).1
        = (run_analysis trivTig w9a w9df).1) :=
  ⟨⟨rfl, rfl, rfl⟩, analysis_idempotent trivTig w9a w9b w9df rfl rfl rfl⟩

theorem boot_iteration_wrong_arity {P L V : Type} (tig : TigramiteModel P L V)
    (s : CausalityState P) (i : Nat) {df0 : Dataframe} {names : List String}
    (hdf : generate_dataframe s.var_names s.D = some (df0, names))
    (hn : names.length ≠ 4) :
    boot_iteration tig s i = none := by
  have hvn := generate_dataframe_var_names hdf
  simp only [boot_iteration, hdf]
  cases hd : npDelete df0.values (List.range' i (n_mons_of s.range_months)) with
  | none => simp
  | some newVals =>
      simp only [linear_estimator, construct_causal_graph, med_val_matrix, med_coefs,
        med_all_ace, med_all_acs]
      have hlen : (tig.all_ace
          (tig.significant_parents { df0 with values := newVals } s.tau_min s.tau_max
            s.alpha_level)
          { df0 with values := newVals } s.tau_max).length = names.length := by
        rw [tig.ace_length]
        show df0.var_names.length = names.length
        rw [hvn]
      have hfa : formatFour (tig.all_ace
          (tig.significant_parents { df0 with values := newVals } s.tau_min s.tau_max
            s.alpha_level)
          { df0 with values := newVals } s.tau_max) = none := by
        unfold formatFour
        rw [if_neg]
        rw [hlen]
        exact hn
      simp [hfa]

/-- Claim C10 (amended): the per-iteration report lines format the ACE and
ACS vectors as exactly four named values, so a bootstrap run executing at
least one iteration aborts — before any archive file is written — whenever
the aligned dataset does not have exactly 4 variables; a run configured
with zero iterations, however, completes for any variable count. -/
theorem reporting_requires_four_vars {P L V : Type} (tig : TigramiteModel P L V)
    (s : CausalityState P) {df0 : Dataframe} {names : List String}
    (hdf : generate_dataframe s.var_names s.D = some (df0, names))
    (hn : names.length ≠ 4) (hb : 1 ≤ s.boot_iter) :
    (∀ v : List ℚ, (formatFour v).isSome ↔ v.length = 4) ∧
    bootrstapping tig s = none ∧ bootstrap_writes tig s = [] := by
  have hform : ∀ v : List ℚ, (formatFour v).isSome ↔ v.length = 4 := by
    intro v
    unfold formatFour
    by_cases hv : v.length = 4
    · simp [hv]
    · simp [hv]
  have hrun : bootrstapping tig s = none := by
    cases hg : generate_random_indices s with
    | none => simp [bootrstapping, hg]
    | some inds =>
        cases inds with
        | nil =>
            have h0 := generate_random_indices_length hg
            simp at h0
            omega
        | cons i rest =>
            have hit := boot_iteration_wrong_arity tig s i hdf hn
            simp [bootrstapping, hg, boot_loop, hit]
  exact ⟨hform, hrun, by simp [bootstrap_writes, hrun]⟩

/-- A three-variable state configured for zero bootstrap iterations. -/
def c10state : CausalityState Unit :=
  { D := [("X", List.replicate 24 0), ("Y", List.replicate 24 1),
      ("Z", List.replicate 24 2)]
    var_names := ["X", "Y", "Z"]
    path := "out/"
    save_path := ""
    tau_min := 0
    tau_max := 3
    alpha_level := 1 / 20
    range_months := (0, 11)
    boot_iter := 0
    linear_mediator := none }

/-- Claim C10 counterexample: a bootstrap run over a 3-variable dataset with
`boot_iters = 0` completes without error (it even writes its archive), so
an error-free bootstrap run does not require exactly 4 variables. -/
theorem three_var_zero_iter_completes :
    c10state.var_names.length = 3 ∧ c10state.boot_iter = 0 ∧
    (bootstrap_writes trivTig c10state).length = 1 :=
  ⟨rfl, rfl, by decide⟩

/-- The same three variables but with one bootstrap iteration. -/
def w10state : CausalityState Unit :=
  { c10state with boot_iter := 1 }

def w10df : Dataframe :=
  { values := List.replicate 24 ([0, 1, 2] : List Int), var_names := ["X", "Y", "Z"] }

theorem reporting_requires_four_vars_witness :
    generate_dataframe w10state.var_names w10state.D = some (w10df, ["X", "Y", "Z"]) ∧
    (["X", "Y", "Z"] : List String).length ≠ 4 ∧ 1 ≤ w10state.boot_iter ∧
    ((∀ v : List ℚ, (formatFour v).isSome ↔ v.length = 4) ∧
      bootrstapping trivTig w10state = none ∧ bootstrap_writes trivTig w10state = []) :=
  ⟨by decide, by decide, by decide,
    reporting_requires_four_vars trivTig w10state
      (show generate_dataframe w10state.var_names w10state.D
        = some (w10df, ["X", "Y", "Z"]) by decide)
      (by decide) (by decide)⟩

end CausalClimate
